import Mathlib

/-!
Verification of the Firestore-backed OAuth provider
(`mcp_simple_auth/firestore_client.py` and
`mcp_simple_auth/firestore_auth_provider.py`).

The Firestore collections are modelled as association lists from document
key to a typed document; each Python method becomes a pure Lean function,
with the wall clock (`time.time()`) passed explicitly as `now : Nat` and
each `secrets.token_hex(...)` draw passed explicitly as a string argument.
-/

namespace McpOAuth

/-- Association-list lookup: the first binding for key `k`, mirroring a
Firestore `document(k).get()`. -/
def lookupDoc {α : Type} (m : List (String × α)) (k : String) : Option α :=
  match m with
  | [] => none
  | (k₁, v) :: rest => if k₁ == k then some v else lookupDoc rest k

/-- Association-list delete: removes every binding for key `k`, mirroring
a Firestore `document(k).delete()`. -/
def deleteDoc {α : Type} (m : List (String × α)) (k : String) : List (String × α) :=
  m.filter (fun p => p.1 != k)

/-- Association-list overwrite, mirroring a Firestore `document(k).set(v)`
(last-write-wins). -/
def setDoc {α : Type} (m : List (String × α)) (k : String) (v : α) : List (String × α) :=
  (k, v) :: deleteDoc m k

/-- The flow-state document written by `authorize` into the `oauth_state`
collection.  Note that `redirect_uri_provided_explicitly` is stored as the
Python string form of the boolean (`str(...)`). -/
structure StateData where
  redirect_uri : String
  code_challenge : String
  redirect_uri_provided_explicitly : String
  client_id : String
  resource : Option String
deriving DecidableEq, Repr

/-- `mcp.server.auth.provider.AuthorizationCode` as persisted in the
`auth_codes` collection. -/
structure AuthorizationCode where
  code : String
  client_id : String
  redirect_uri : String
  redirect_uri_provided_explicitly : Bool
  expires_at : Nat
  scopes : List String
  code_challenge : String
  resource : Option String
deriving DecidableEq, Repr

/-- `mcp.server.auth.provider.AccessToken` as persisted in the
`oauth_tokens` collection. -/
structure AccessToken where
  token : String
  client_id : String
  scopes : List String
  expires_at : Nat
  resource : Option String
deriving DecidableEq, Repr

/-- The user-session document written into the `user_data` collection. -/
structure UserData where
  username : String
  user_id : String
  authenticated_at : Nat
deriving DecidableEq, Repr

/-- The part of `OAuthClientInformationFull` the provider reads: only
`client_id` is consulted by the modelled operations. -/
structure OAuthClientInformationFull where
  client_id : String
deriving DecidableEq, Repr

/-- The bearer-token response returned by `exchange_authorization_code`. -/
structure OAuthToken where
  access_token : String
  token_type : String
  expires_in : Nat
  scope : String
deriving DecidableEq, Repr

/-- The fields of `AuthorizationParams` read by `authorize`. -/
structure AuthorizationParams where
  state : Option String
  redirect_uri : String
  code_challenge : String
  redirect_uri_provided_explicitly : Bool
  resource : Option String
deriving DecidableEq, Repr

/-- The fields of `SimpleAuthSettings` the provider reads: the fixed demo
credential pair and the single MCP scope. -/
structure Settings where
  demo_username : String
  demo_password : String
  mcp_scope : String
deriving DecidableEq, Repr

/-- The five Firestore collections of `FirestoreClient`. -/
structure Store where
  clients : List (String × OAuthClientInformationFull)
  tokens : List (String × AccessToken)
  auth_codes : List (String × AuthorizationCode)
  oauth_state : List (String × StateData)
  user_data : List (String × UserData)
deriving DecidableEq, Repr

/-- The two `HTTPException`s raised by `handle_simple_callback`:
`(400, "Invalid state parameter")` and `(401, "Invalid credentials")`. -/
inductive CallbackError
  | invalidState
  | invalidCredentials
deriving DecidableEq, Repr

/-- The `ValueError("Invalid authorization code")` raised by
`exchange_authorization_code`. -/
inductive ExchangeError
  | invalidCode
deriving DecidableEq, Repr

/-- `FirestoreClient.get_token`: lookup in `oauth_tokens`; if the document
exists but `expires_at < time.time()`, delete it and return absent. -/
def get_token (s : Store) (now : Nat) (token : String) : Option AccessToken × Store :=
  match lookupDoc s.tokens token with
  | none => (none, s)
  | some token_data =>
    if token_data.expires_at < now then
      (none, { s with tokens := deleteDoc s.tokens token })
    else
      (some token_data, s)

/-- `FirestoreClient.set_token`. -/
def set_token (s : Store) (token : String) (token_data : AccessToken) : Store :=
  { s with tokens := setDoc s.tokens token token_data }

/-- `FirestoreClient.delete_token`. -/
def delete_token (s : Store) (token : String) : Store :=
  { s with tokens := deleteDoc s.tokens token }

/-- `FirestoreClient.get_auth_code`: lookup in `auth_codes`; if the document
exists but `expires_at < time.time()`, delete it and return absent. -/
def get_auth_code (s : Store) (now : Nat) (code : String) : Option AuthorizationCode × Store :=
  match lookupDoc s.auth_codes code with
  | none => (none, s)
  | some code_data =>
    if code_data.expires_at < now then
      (none, { s with auth_codes := deleteDoc s.auth_codes code })
    else
      (some code_data, s)

/-- `FirestoreClient.set_auth_code`. -/
def set_auth_code (s : Store) (code : String) (code_data : AuthorizationCode) : Store :=
  { s with auth_codes := setDoc s.auth_codes code code_data }

/-- `FirestoreClient.delete_auth_code`. -/
def delete_auth_code (s : Store) (code : String) : Store :=
  { s with auth_codes := deleteDoc s.auth_codes code }

/-- `FirestoreClient.get_state`: plain lookup, no TTL handling. -/
def get_state (s : Store) (state : String) : Option StateData :=
  lookupDoc s.oauth_state state

/-- `FirestoreClient.set_state`. -/
def set_state (s : Store) (state : String) (state_data : StateData) : Store :=
  { s with oauth_state := setDoc s.oauth_state state state_data }

/-- `FirestoreClient.delete_state`. -/
def delete_state (s : Store) (state : String) : Store :=
  { s with oauth_state := deleteDoc s.oauth_state state }

/-- `FirestoreClient.set_user_data`. -/
def set_user_data (s : Store) (key : String) (data : UserData) : Store :=
  { s with user_data := setDoc s.user_data key data }

/-- Python `str(...)` applied to a boolean, as used by `authorize` on
`params.redirect_uri_provided_explicitly`. -/
def pyStrBool (b : Bool) : String :=
  if b then "True" else "False"

/-- Modelled from the spec: `mcp.server.auth.provider.construct_redirect_uri`
(not part of this repository) builds the client redirect carrying `code` and
`state` query parameters, as in spec scenario A
(`https://app/cb?code=mcp_XXXX&state=s1`). -/
def construct_redirect_uri (redirect_uri : String) (code : String) (state : String) : String :=
  redirect_uri ++ "?code=" ++ code ++ "&state=" ++ state

/-- `FirestoreOAuthProvider.authorize`: pick the caller state or a fresh
random one (`genState` models `secrets.token_hex(16)`), persist the flow
state, and return the login URL. -/
def authorize (auth_callback_url : String) (s : Store) (client : OAuthClientInformationFull)
    (params : AuthorizationParams) (genState : String) : String × Store :=
  let state := params.state.getD genState
  let state_data : StateData :=
    { redirect_uri := params.redirect_uri
      code_challenge := params.code_challenge
      redirect_uri_provided_explicitly := pyStrBool params.redirect_uri_provided_explicitly
      client_id := client.client_id
      resource := params.resource }
  let s₁ := set_state s state state_data
  (auth_callback_url ++ "?state=" ++ state ++ "&client_id=" ++ client.client_id, s₁)

/-- `FirestoreOAuthProvider.handle_simple_callback`: load flow state (400 on
absence), validate the fixed demo credentials (401 on mismatch), mint an
authorization code expiring at `now + 300` with scopes `[mcp_scope]`, store
it, store user data keyed by username, delete the consumed state, and
return the client redirect.  `genCodeHex`/`genUserHex` model the
`secrets.token_hex` draws. -/
def handle_simple_callback (settings : Settings) (s : Store) (now : Nat)
    (username password state genCodeHex genUserHex : String) :
    Except CallbackError String × Store :=
  match get_state s state with
  | none => (Except.error CallbackError.invalidState, s)
  | some state_data =>
    if username != settings.demo_username || password != settings.demo_password then
      (Except.error CallbackError.invalidCredentials, s)
    else
      let new_code := "mcp_" ++ genCodeHex
      let auth_code : AuthorizationCode :=
        { code := new_code
          client_id := state_data.client_id
          redirect_uri := state_data.redirect_uri
          redirect_uri_provided_explicitly :=
            state_data.redirect_uri_provided_explicitly == "True"
          expires_at := now + 300
          scopes := [settings.mcp_scope]
          code_challenge := state_data.code_challenge
          resource := state_data.resource }
      let s₁ := set_auth_code s new_code auth_code
      let s₂ := set_user_data s₁ username
        { username := username, user_id := "user_" ++ genUserHex, authenticated_at := now }
      let s₃ := delete_state s₂ state
      (Except.ok (construct_redirect_uri state_data.redirect_uri new_code state), s₃)

/-- `FirestoreOAuthProvider.load_authorization_code`: `get_auth_code` then
reconstruct the `AuthorizationCode` (the identity in this typed model). -/
def load_authorization_code (s : Store) (now : Nat) (authorization_code : String) :
    Option AuthorizationCode × Store :=
  get_auth_code s now authorization_code

/-- `FirestoreOAuthProvider.exchange_authorization_code`: re-check the code
in the store (ValueError on absence), mint an access token expiring at
`now + 3600` with the scopes and resource of the caller-supplied code and
the caller-supplied client id, store it, store user data keyed by the new
token (fixed demo identity), delete the consumed code, and return the
bearer-token response. -/
def exchange_authorization_code (settings : Settings) (s : Store) (now : Nat)
    (client : OAuthClientInformationFull) (authorization_code : AuthorizationCode)
    (genTokenHex genUserHex : String) :
    Except ExchangeError OAuthToken × Store :=
  match get_auth_code s now authorization_code.code with
  | (none, s₁) => (Except.error ExchangeError.invalidCode, s₁)
  | (some _, s₁) =>
    let mcp_token := "mcp_" ++ genTokenHex
    let access_token : AccessToken :=
      { token := mcp_token
        client_id := client.client_id
        scopes := authorization_code.scopes
        expires_at := now + 3600
        resource := authorization_code.resource }
    let s₂ := set_token s₁ mcp_token access_token
    let s₃ := set_user_data s₂ mcp_token
      { username := settings.demo_username
        user_id := "user_" ++ genUserHex
        authenticated_at := now }
    let s₄ := delete_auth_code s₃ authorization_code.code
    (Except.ok
      { access_token := mcp_token
        token_type := "Bearer"
        expires_in := 3600
        scope := String.intercalate " " authorization_code.scopes }, s₄)

/-- `FirestoreOAuthProvider.load_access_token`: `get_token` then reconstruct
the `AccessToken` (the identity in this typed model). -/
def load_access_token (s : Store) (now : Nat) (token : String) :
    Option AccessToken × Store :=
  get_token s now token

/-- `FirestoreOAuthProvider.revoke_token`: unconditionally delete the token
document; never an error. -/
def revoke_token (s : Store) (token : String) : Store :=
  delete_token s token

/-- The complete authorization flow, composing the provider operations in
their intended order: `authorize`, the credential callback on the issued
state with the correct demo credentials, `load_authorization_code` on the
minted code (`"mcp_" ++ g₁`), and `exchange_authorization_code` on the
loaded code.  `now₁` is the clock at callback time and `now₂` at exchange
time; any failure yields `none`. -/
def run_full_flow (settings : Settings) (auth_callback_url : String) (s₀ : Store)
    (client : OAuthClientInformationFull) (params : AuthorizationParams)
    (genState g₁ g₂ g₃ g₄ : String) (now₁ now₂ : Nat) : Option (OAuthToken × Store) :=
  let state := params.state.getD genState
  let s₁ := (authorize auth_callback_url s₀ client params genState).2
  match handle_simple_callback settings s₁ now₁ settings.demo_username
      settings.demo_password state g₁ g₂ with
  | (Except.error _, _) => none
  | (Except.ok _, s₂) =>
    match load_authorization_code s₂ now₂ ("mcp_" ++ g₁) with
    | (none, _) => none
    | (some code, s₃) =>
      match exchange_authorization_code settings s₃ now₂ client code g₃ g₄ with
      | (Except.error _, _) => none
      | (Except.ok tok, s₄) => some (tok, s₄)

/-! ### Association-list lemmas -/

theorem pyStrBool_roundtrip (b : Bool) : (pyStrBool b == "True") = b := by
  cases b <;> rfl

theorem lookupDoc_setDoc_self {α : Type} (m : List (String × α)) (k : String) (v : α) :
    lookupDoc (setDoc m k v) k = some v := by
  simp [setDoc, lookupDoc]

theorem lookupDoc_deleteDoc_self {α : Type} (m : List (String × α)) (k : String) :
    lookupDoc (deleteDoc m k) k = none := by
  induction m with
  | nil => rfl
  | cons p rest ih =>
    obtain ⟨k₁, v⟩ := p
    by_cases h : k₁ = k
    · subst h
      simpa [deleteDoc, List.filter_cons] using ih
    · have hb : (k₁ != k) = true := bne_iff_ne.mpr h
      have hb₂ : (k₁ == k) = false := beq_eq_false_iff_ne.mpr h
      simpa [deleteDoc, List.filter_cons, hb, lookupDoc, hb₂] using ih

theorem lookupDoc_setDoc_ne {α : Type} (m : List (String × α)) (k k' : String) (v : α)
    (h : k ≠ k') : lookupDoc (setDoc m k v) k' = lookupDoc (deleteDoc m k) k' := by
  have hb : (k == k') = false := beq_eq_false_iff_ne.mpr h
  simp [setDoc, lookupDoc, hb]

theorem lookupDoc_deleteDoc_ne {α : Type} (m : List (String × α)) (k k' : String)
    (h : k ≠ k') : lookupDoc (deleteDoc m k) k' = lookupDoc m k' := by
  induction m with
  | nil => rfl
  | cons p rest ih =>
    obtain ⟨k₁, v⟩ := p
    by_cases hp : k₁ = k
    · subst hp
      have hb₂ : (k₁ == k') = false := beq_eq_false_iff_ne.mpr (by simpa using h)
      simp only [deleteDoc, List.filter_cons, bne_self_eq_false, lookupDoc, hb₂]
      simp only [Bool.false_eq_true, if_false]
      simpa [deleteDoc] using ih
    · have hb : (k₁ != k) = true := bne_iff_ne.mpr hp
      by_cases hq : k₁ = k'
      · simp [deleteDoc, List.filter_cons, hb, lookupDoc, hq, Ne.symm h]
      · have hb₂ : (k₁ == k') = false := beq_eq_false_iff_ne.mpr hq
        simpa [deleteDoc, List.filter_cons, hb, lookupDoc, hb₂] using ih

/-! ### Concrete fixtures for witnesses -/

def settings₀ : Settings :=
  { demo_username := "demo_user", demo_password := "demo_password", mcp_scope := "user" }

def client₀ : OAuthClientInformationFull := { client_id := "client_a" }

def code₀ : AuthorizationCode :=
  { code := "mcp_c0"
    client_id := "client_a"
    redirect_uri := "https://app/cb"
    redirect_uri_provided_explicitly := true
    expires_at := 1000
    scopes := ["user"]
    code_challenge := "chal"
    resource := some "https://rs.example" }

def token₀ : AccessToken :=
  { token := "t1", client_id := "client_a", scopes := ["user"], expires_at := 50,
    resource := none }

def stateData₀ : StateData :=
  { redirect_uri := "https://app/cb"
    code_challenge := "chal"
    redirect_uri_provided_explicitly := "True"
    client_id := "client_a"
    resource := some "https://rs.example" }

def store₀ : Store :=
  { clients := []
    tokens := [("t1", token₀)]
    auth_codes := [("mcp_c0", code₀)]
    oauth_state := [("s1", stateData₀)]
    user_data := [] }

/-! ### Claim theorems -/

/-- C7: `revoke_token` is an unconditional delete on the tokens collection:
for every token string it removes the token document (so a later lookup is
absent), touches no other collection, and, being a total function, returns
success without error whether or not the token existed beforehand. -/
theorem revoke_token_unconditional (s : Store) (token : String) :
    revoke_token s token = { s with tokens := deleteDoc s.tokens token } ∧
    lookupDoc (revoke_token s token).tokens token = none ∧
    (revoke_token s token).clients = s.clients ∧
    (revoke_token s token).auth_codes = s.auth_codes ∧
    (revoke_token s token).oauth_state = s.oauth_state ∧
    (revoke_token s token).user_data = s.user_data := by
  refine ⟨rfl, ?_, rfl, rfl, rfl, rfl⟩
  exact lookupDoc_deleteDoc_self s.tokens token

/-- C2: lazy expiry on read with a strict comparison, on both TTL
namespaces.  `get_token`/`get_auth_code` return the stored document exactly
when it exists and its `expires_at` is not strictly below `now`; when
`expires_at < now` they delete the document as a side effect and return
absent; a document with `expires_at = now` is still returned as valid. -/
theorem ttl_get_lazy_expiry (s : Store) (now : Nat) (key : String) :
    (∀ d, lookupDoc s.tokens key = some d →
      (¬ d.expires_at < now → get_token s now key = (some d, s)) ∧
      (d.expires_at < now →
        get_token s now key = (none, { s with tokens := deleteDoc s.tokens key }) ∧
        lookupDoc (get_token s now key).2.tokens key = none) ∧
      (d.expires_at = now → (get_token s now key).1 = some d)) ∧
    (lookupDoc s.tokens key = none → get_token s now key = (none, s)) ∧
    (∀ d, lookupDoc s.auth_codes key = some d →
      (¬ d.expires_at < now → get_auth_code s now key = (some d, s)) ∧
      (d.expires_at < now →
        get_auth_code s now key = (none, { s with auth_codes := deleteDoc s.auth_codes key }) ∧
        lookupDoc (get_auth_code s now key).2.auth_codes key = none) ∧
      (d.expires_at = now → (get_auth_code s now key).1 = some d)) ∧
    (lookupDoc s.auth_codes key = none → get_auth_code s now key = (none, s)) := by
  refine ⟨?_, ?_, ?_, ?_⟩
  · intro d hd
    refine ⟨?_, ?_, ?_⟩
    · intro hexp; simp [get_token, hd, hexp]
    · intro hexp
      refine ⟨by simp [get_token, hd, hexp], ?_⟩
      simp [get_token, hd, hexp, lookupDoc_deleteDoc_self]
    · intro heq; simp [get_token, hd, heq]
  · intro hd; simp [get_token, hd]
  · intro d hd
    refine ⟨?_, ?_, ?_⟩
    · intro hexp; simp [get_auth_code, hd, hexp]
    · intro hexp
      refine ⟨by simp [get_auth_code, hd, hexp], ?_⟩
      simp [get_auth_code, hd, hexp, lookupDoc_deleteDoc_self]
    · intro heq; simp [get_auth_code, hd, heq]
  · intro hd; simp [get_auth_code, hd]

/-- C2 witness: with `token₀` expired (`expires_at = 50 < 100`) the read
deletes and returns absent, while `code₀` read at exactly its
`expires_at = 1000` is still returned as valid. -/
theorem ttl_get_lazy_expiry_witness :
    (get_token store₀ 100 ("t1") =
      (none, { store₀ with tokens := deleteDoc store₀.tokens ("t1") }) ∧
     lookupDoc (get_token store₀ 100 ("t1")).2.tokens ("t1") = none) ∧
    (get_auth_code store₀ 1000 ("mcp_c0")).1 = some code₀ := by
  refine ⟨((ttl_get_lazy_expiry store₀ 100 ("t1")).1 token₀ (by decide)).2.1 (by decide), ?_⟩
  exact (((ttl_get_lazy_expiry store₀ 1000 ("mcp_c0")).2.2.1 code₀ (by decide)).2.2) (by decide)

/-- C3 counterexample: a token stored with `expires_at = 50`, read at
`now = 50` (the boundary `now == expires_at`), is returned as valid, while
the claim says it is treated as invalid, and `now < expires_at` fails. -/
theorem load_access_token_boundary_cex :
    (load_access_token store₀ 50 ("t1")).1 = some token₀ ∧
    token₀.expires_at = 50 ∧ ¬ 50 < token₀.expires_at := by
  decide

/-- C3 (amended): for every stored token, `load_access_token` returns a
valid verdict exactly when `now ≤ expires_at`; at the boundary
`now == expires_at` the token is still treated as valid. -/
theorem load_access_token_verdict (s : Store) (now : Nat) (token : String)
    (d : AccessToken) (hd : lookupDoc s.tokens token = some d) :
    ((load_access_token s now token).1 = some d ↔ now ≤ d.expires_at) ∧
    (now = d.expires_at → (load_access_token s now token).1 = some d) := by
  constructor
  · by_cases hexp : d.expires_at < now
    · simp only [load_access_token, get_token, hd, if_pos hexp]
      constructor
      · intro h; exact absurd h (by simp)
      · intro h; omega
    · simp only [load_access_token, get_token, hd, if_neg hexp]
      constructor
      · intro _; omega
      · intro _; trivial
  · intro heq
    have hexp : ¬ d.expires_at < now := by omega
    simp only [load_access_token, get_token, hd, if_neg hexp]

/-- C3 (amended) witness: the stored token with `expires_at = 50` read at
`now = 50` is returned as valid. -/
theorem load_access_token_verdict_witness :
    ((load_access_token store₀ 50 ("t1")).1 = some token₀ ↔ 50 ≤ token₀.expires_at) ∧
    (50 = token₀.expires_at → (load_access_token store₀ 50 ("t1")).1 = some token₀) :=
  load_access_token_verdict store₀ 50 ("t1") token₀ (by decide)

/-- C1: one-time use of authorization codes.  For every stored, unexpired
authorization code, the first `exchange_authorization_code` succeeds
(minting a bearer token) and deletes the code, and a second sequential
exchange with the same code fails with the invalid-code error, the store
no longer containing the code. -/
theorem exchange_code_once (settings : Settings) (s : Store) (now : Nat)
    (client : OAuthClientInformationFull) (d : AuthorizationCode) (g₁ g₂ g₃ g₄ : String)
    (hd : lookupDoc s.auth_codes d.code = some d) (hexp : ¬ d.expires_at < now) :
    (exchange_authorization_code settings s now client d g₁ g₂).1 =
      Except.ok
        { access_token := "mcp_" ++ g₁
          token_type := "Bearer"
          expires_in := 3600
          scope := String.intercalate " " d.scopes } ∧
    lookupDoc (exchange_authorization_code settings s now client d g₁ g₂).2.auth_codes
      d.code = none ∧
    (exchange_authorization_code settings
        (exchange_authorization_code settings s now client d g₁ g₂).2 now client d g₃ g₄).1 =
      Except.error ExchangeError.invalidCode ∧
    lookupDoc (exchange_authorization_code settings
        (exchange_authorization_code settings s now client d g₁ g₂).2 now client d g₃ g₄).2.auth_codes
      d.code = none := by
  have hget : get_auth_code s now d.code = (some d, s) := by
    simp [get_auth_code, hd, hexp]
  have hnone : lookupDoc (exchange_authorization_code settings s now client d g₁ g₂).2.auth_codes
      d.code = none := by
    simp [exchange_authorization_code, hget, set_token, set_user_data, delete_auth_code,
      lookupDoc_deleteDoc_self]
  have hget₂ : get_auth_code (exchange_authorization_code settings s now client d g₁ g₂).2 now
      d.code = (none, (exchange_authorization_code settings s now client d g₁ g₂).2) := by
    simp [get_auth_code, hnone]
  refine ⟨?_, hnone, ?_, ?_⟩
  · simp [exchange_authorization_code, hget]
  · conv_lhs => rw [exchange_authorization_code, hget₂]
  · conv_lhs => rw [exchange_authorization_code, hget₂]
    exact hnone

/-- C1 witness: exchanging `code₀` at time 500 (unexpired) in `store₀`
succeeds, and the immediate second exchange fails with `invalidCode`. -/
theorem exchange_code_once_witness :
    (exchange_authorization_code settings₀ store₀ 500 client₀ code₀ ("t") ("u")).1 =
      Except.ok
        { access_token := "mcp_" ++ "t"
          token_type := "Bearer"
          expires_in := 3600
          scope := String.intercalate " " code₀.scopes } ∧
    lookupDoc (exchange_authorization_code settings₀ store₀ 500 client₀ code₀ ("t") ("u")).2.auth_codes
      code₀.code = none ∧
    (exchange_authorization_code settings₀
        (exchange_authorization_code settings₀ store₀ 500 client₀ code₀ ("t") ("u")).2
        500 client₀ code₀ ("t2") ("u2")).1 =
      Except.error ExchangeError.invalidCode ∧
    lookupDoc (exchange_authorization_code settings₀
        (exchange_authorization_code settings₀ store₀ 500 client₀ code₀ ("t") ("u")).2
        500 client₀ code₀ ("t2") ("u2")).2.auth_codes
      code₀.code = none :=
  exchange_code_once settings₀ store₀ 500 client₀ code₀ ("t") ("u") ("t2") ("u2")
    (by decide) (by decide)

/-- C6: no client binding at exchange time.  For every caller-supplied
client — with no hypothesis relating its `client_id` to the `client_id`
stored in the code — exchanging a stored, unexpired code succeeds, and the
minted access token carries the caller's `client_id`, not the code's. -/
theorem exchange_no_client_binding (settings : Settings) (s : Store) (now : Nat)
    (client : OAuthClientInformationFull) (d : AuthorizationCode) (g₁ g₂ : String)
    (hd : lookupDoc s.auth_codes d.code = some d) (hexp : ¬ d.expires_at < now) :
    (exchange_authorization_code settings s now client d g₁ g₂).1 =
      Except.ok
        { access_token := "mcp_" ++ g₁
          token_type := "Bearer"
          expires_in := 3600
          scope := String.intercalate " " d.scopes } ∧
    lookupDoc (exchange_authorization_code settings s now client d g₁ g₂).2.tokens
        ("mcp_" ++ g₁) =
      some
        { token := "mcp_" ++ g₁
          client_id := client.client_id
          scopes := d.scopes
          expires_at := now + 3600
          resource := d.resource } := by
  have hget : get_auth_code s now d.code = (some d, s) := by
    simp [get_auth_code, hd, hexp]
  constructor
  · simp [exchange_authorization_code, hget]
  · simp [exchange_authorization_code, hget, set_token, set_user_data, delete_auth_code,
      lookupDoc_setDoc_self]

/-- C6 witness: a client whose `client_id` (`"client_b"`) differs from the
one stored in `code₀` (`"client_a"`) still exchanges successfully, and the
minted token carries `"client_b"`. -/
theorem exchange_no_client_binding_witness :
    OAuthClientInformationFull.client_id { client_id := "client_b" } ≠ code₀.client_id ∧
    (exchange_authorization_code settings₀ store₀ 500 { client_id := "client_b" }
        code₀ ("t") ("u")).1 =
      Except.ok
        { access_token := "mcp_" ++ "t"
          token_type := "Bearer"
          expires_in := 3600
          scope := String.intercalate " " code₀.scopes } ∧
    lookupDoc (exchange_authorization_code settings₀ store₀ 500 { client_id := "client_b" }
        code₀ ("t") ("u")).2.tokens ("mcp_" ++ "t") =
      some
        { token := "mcp_" ++ "t"
          client_id := OAuthClientInformationFull.client_id { client_id := "client_b" }
          scopes := code₀.scopes
          expires_at := 500 + 3600
          resource := code₀.resource } := by
  refine ⟨by decide, ?_⟩
  exact exchange_no_client_binding settings₀ store₀ 500 { client_id := "client_b" }
    code₀ ("t") ("u") (by decide) (by decide)

/-- C4: single-use flow state.  Whenever `handle_simple_callback` succeeds
for a state, the flow-state document is deleted as part of that call, so a
replayed callback with the same state (any credentials) fails with the
invalid-state error (HTTP 400) and leaves the store unchanged. -/
theorem callback_state_single_use (settings : Settings) (s : Store) (now now₂ : Nat)
    (u p state g₁ g₂ u₂ p₂ g₃ g₄ : String) (r : String) (s₁ : Store)
    (h : handle_simple_callback settings s now u p state g₁ g₂ = (Except.ok r, s₁)) :
    lookupDoc s₁.oauth_state state = none ∧
    handle_simple_callback settings s₁ now₂ u₂ p₂ state g₃ g₄ =
      (Except.error CallbackError.invalidState, s₁) := by
  have h₁ : lookupDoc s₁.oauth_state state = none := by
    cases hst : get_state s state with
    | none =>
      simp only [handle_simple_callback, hst] at h
      exact absurd h (by simp)
    | some sd =>
      simp only [handle_simple_callback, hst] at h
      by_cases hcred : (u != settings.demo_username || p != settings.demo_password) = true
      · rw [if_pos hcred] at h
        exact absurd h (by simp)
      · rw [if_neg hcred] at h
        injection h with hr hs
        subst hs
        simp [delete_state, set_user_data, set_auth_code, lookupDoc_deleteDoc_self]
  refine ⟨h₁, ?_⟩
  simp [handle_simple_callback, get_state, h₁]

/-- C4 witness: a successful callback on `store₀`'s state `"s1"` deletes
it, and the replay fails with the invalid-state error. -/
theorem callback_state_single_use_witness :
    lookupDoc (handle_simple_callback settings₀ store₀ 10 ("demo_user") ("demo_password")
        ("s1") ("c") ("u")).2.oauth_state ("s1") = none ∧
    handle_simple_callback settings₀
        (handle_simple_callback settings₀ store₀ 10 ("demo_user") ("demo_password")
          ("s1") ("c") ("u")).2
        20 ("demo_user") ("demo_password") ("s1") ("c2") ("u2") =
      (Except.error CallbackError.invalidState,
        (handle_simple_callback settings₀ store₀ 10 ("demo_user") ("demo_password")
          ("s1") ("c") ("u")).2) :=
  callback_state_single_use settings₀ store₀ 10 20 ("demo_user") ("demo_password")
    ("s1") ("c") ("u") ("demo_user") ("demo_password") ("c2") ("u2")
    (construct_redirect_uri stateData₀.redirect_uri ("mcp_" ++ "c") ("s1"))
    (handle_simple_callback settings₀ store₀ 10 ("demo_user") ("demo_password")
      ("s1") ("c") ("u")).2
    rfl

/-- C8: atomicity of the callback on failure.  Every failing
`handle_simple_callback` — invalid state or invalid credentials — returns
the store unchanged (no collection is modified); on the invalid-credentials
path for a stored state the error is `invalidCredentials` with the store
intact, and a later callback with the same state and the correct demo
credentials succeeds. -/
theorem callback_failure_atomic (settings : Settings) (s : Store) (now : Nat)
    (u p state g₁ g₂ : String) :
    (∀ e, (handle_simple_callback settings s now u p state g₁ g₂).1 = Except.error e →
      (handle_simple_callback settings s now u p state g₁ g₂).2 = s) ∧
    (∀ sd, lookupDoc s.oauth_state state = some sd →
      (u ≠ settings.demo_username ∨ p ≠ settings.demo_password) →
      handle_simple_callback settings s now u p state g₁ g₂ =
        (Except.error CallbackError.invalidCredentials, s) ∧
      (handle_simple_callback settings s now settings.demo_username
          settings.demo_password state g₁ g₂).1 =
        Except.ok (construct_redirect_uri sd.redirect_uri ("mcp_" ++ g₁) state)) := by
  constructor
  · intro e he
    cases hst : get_state s state with
    | none => simp [handle_simple_callback, hst]
    | some sd =>
      by_cases hcred : (u != settings.demo_username || p != settings.demo_password) = true
      · simp [handle_simple_callback, hst, hcred]
      · simp only [handle_simple_callback, hst, if_neg hcred] at he
        exact absurd he (by simp)
  · intro sd hsd hne
    have hst : get_state s state = some sd := hsd
    have hcred : (u != settings.demo_username || p != settings.demo_password) = true := by
      rcases hne with hne | hne
      · simp [bne_iff_ne, hne]
      · simp [bne_iff_ne, hne]
    constructor
    · simp [handle_simple_callback, hst, hcred]
    · simp [handle_simple_callback, hst]

/-- C8 witness: on `store₀`, a wrong password leaves the store unchanged
(`invalidCredentials`), and the correct demo credentials then succeed on
the still-present state `"s1"`. -/
theorem callback_failure_atomic_witness :
    ((handle_simple_callback settings₀ store₀ 10 ("demo_user") ("wrong")
        ("s1") ("c") ("u")).2 = store₀) ∧
    (handle_simple_callback settings₀ store₀ 10 ("demo_user") ("wrong")
        ("s1") ("c") ("u")) =
      (Except.error CallbackError.invalidCredentials, store₀) ∧
    (handle_simple_callback settings₀ store₀ 10 ("demo_user") ("demo_password")
        ("s1") ("c") ("u")).1 =
      Except.ok (construct_redirect_uri stateData₀.redirect_uri ("mcp_" ++ "c") ("s1")) := by
  have h := callback_failure_atomic settings₀ store₀ 10 ("demo_user") ("wrong")
    ("s1") ("c") ("u")
  have h₂ := h.2 stateData₀ (by decide) (Or.inr (by decide))
  exact ⟨h.1 CallbackError.invalidCredentials (by rw [h₂.1]), h₂.1, h₂.2⟩

/-- C9: fixed-scope invariant.  Every authorization code minted by a
successful `handle_simple_callback` has scopes exactly
`[settings.mcp_scope]`, whatever the client requested at authorize time;
and exchanging any code whose scopes are `[settings.mcp_scope]` mints a
token with those same scopes and returns a scope string equal to
`settings.mcp_scope`. -/
theorem fixed_scope_invariant (settings : Settings) (s s' : Store) (now now₂ : Nat)
    (u p state g₁ g₂ g₃ g₄ : String) (client : OAuthClientInformationFull) :
    (∀ r s₁, handle_simple_callback settings s now u p state g₁ g₂ = (Except.ok r, s₁) →
      (lookupDoc s₁.auth_codes ("mcp_" ++ g₁)).map AuthorizationCode.scopes =
        some [settings.mcp_scope]) ∧
    (∀ d, d.scopes = [settings.mcp_scope] →
      ∀ tok s₂, exchange_authorization_code settings s' now₂ client d g₃ g₄ =
          (Except.ok tok, s₂) →
        tok.scope = settings.mcp_scope ∧
        (lookupDoc s₂.tokens ("mcp_" ++ g₃)).map AccessToken.scopes =
          some [settings.mcp_scope]) := by
  constructor
  · intro r s₁ h
    cases hst : get_state s state with
    | none =>
      simp only [handle_simple_callback, hst] at h
      exact absurd h (by simp)
    | some sd =>
      simp only [handle_simple_callback, hst] at h
      by_cases hcred : (u != settings.demo_username || p != settings.demo_password) = true
      · rw [if_pos hcred] at h
        exact absurd h (by simp)
      · rw [if_neg hcred] at h
        injection h with hr hs
        subst hs
        simp [delete_state, set_user_data, set_auth_code, lookupDoc_setDoc_self]
  · intro d hscopes tok s₂ h
    cases hget : get_auth_code s' now₂ d.code with
    | mk found s₁' =>
      cases found with
      | none =>
        simp only [exchange_authorization_code, hget] at h
        exact absurd h (by simp)
      | some d' =>
        simp only [exchange_authorization_code, hget] at h
        injection h with htok hs
        injection htok with htok'
        subst hs
        subst htok'
        constructor
        · show String.intercalate " " d.scopes = settings.mcp_scope
          rw [hscopes]
          rfl
        · simp [delete_auth_code, set_user_data, set_token, lookupDoc_setDoc_self, hscopes]

/-- C9 witness: the code minted by the callback on `store₀` carries scopes
`["user"]` (the configured `mcp_scope`), and exchanging `code₀` (whose
scopes are `["user"]`) yields scope string `"user"` and a token with
scopes `["user"]`. -/
theorem fixed_scope_invariant_witness :
    (lookupDoc (handle_simple_callback settings₀ store₀ 10 ("demo_user") ("demo_password")
          ("s1") ("c") ("u")).2.auth_codes ("mcp_" ++ "c")).map AuthorizationCode.scopes =
      some [settings₀.mcp_scope] ∧
    OAuthToken.scope
        { access_token := "mcp_" ++ "t"
          token_type := "Bearer"
          expires_in := 3600
          scope := String.intercalate " " code₀.scopes } = settings₀.mcp_scope ∧
    (lookupDoc (exchange_authorization_code settings₀ store₀ 500 client₀ code₀
          ("t") ("u")).2.tokens ("mcp_" ++ "t")).map AccessToken.scopes =
      some [settings₀.mcp_scope] := by
  have h := fixed_scope_invariant settings₀ store₀ store₀ 10 500 ("demo_user")
    ("demo_password") ("s1") ("c") ("u") ("t") ("u") client₀
  have h₂ := h.2 code₀ (by decide)
    { access_token := "mcp_" ++ "t"
      token_type := "Bearer"
      expires_in := 3600
      scope := String.intercalate " " code₀.scopes }
    (exchange_authorization_code settings₀ store₀ 500 client₀ code₀ ("t") ("u")).2
    rfl
  exact ⟨h.1 (construct_redirect_uri stateData₀.redirect_uri ("mcp_" ++ "c") ("s1"))
      (handle_simple_callback settings₀ store₀ 10 ("demo_user") ("demo_password")
        ("s1") ("c") ("u")).2 rfl,
    h₂.1, h₂.2⟩

/-- C5: resource round-trip.  For every optional `resource` supplied in
the params of `authorize`, when the flow completes — callback on the
issued state, then exchange of the minted code, with the exchange read
happening while the code is unexpired — the access token stored at the end
carries that same `resource` value unchanged. -/
theorem resource_roundtrip (settings : Settings) (cb : String) (s₀ : Store)
    (client : OAuthClientInformationFull) (params : AuthorizationParams)
    (genState g₁ g₂ g₃ g₄ : String) (now₁ now₂ : Nat)
    (htime : ¬ now₁ + 300 < now₂) :
    (run_full_flow settings cb s₀ client params genState g₁ g₂ g₃ g₄ now₁ now₂).map
        (fun r => (lookupDoc r.2.tokens ("mcp_" ++ g₃)).map AccessToken.resource) =
      some (some params.resource) := by
  simp [run_full_flow, authorize, set_state, get_state, handle_simple_callback,
    lookupDoc_setDoc_self, set_auth_code, set_user_data, delete_state,
    load_authorization_code, get_auth_code, exchange_authorization_code, set_token,
    delete_auth_code, construct_redirect_uri, htime]

/-- C5 witness: the full flow run on an empty store with
`resource = some "https://rs.example"` stores a token carrying exactly
that resource. -/
theorem resource_roundtrip_witness :
    (run_full_flow settings₀ ("https://as/login") ⟨[], [], [], [], []⟩ client₀
        { state := none
          redirect_uri := "https://app/cb"
          code_challenge := "chal"
          redirect_uri_provided_explicitly := true
          resource := some "https://rs.example" }
        ("st") ("c") ("u") ("t") ("v") 10 20).map
        (fun r => (lookupDoc r.2.tokens ("mcp_" ++ "t")).map AccessToken.resource) =
      some (some (some "https://rs.example")) :=
  resource_roundtrip settings₀ ("https://as/login") ⟨[], [], [], [], []⟩ client₀
    { state := none
      redirect_uri := "https://app/cb"
      code_challenge := "chal"
      redirect_uri_provided_explicitly := true
      resource := some "https://rs.example" }
    ("st") ("c") ("u") ("t") ("v") 10 20 (by decide)

/-- C10: boolean stringification round-trip.  `authorize` stores
`params.redirect_uri_provided_explicitly` as its Python string form, and a
successful callback recovers the original boolean by comparing the stored
string to `"True"`, so the flag on the minted authorization code equals
the flag supplied to `authorize`. -/
theorem redirect_flag_roundtrip (settings : Settings) (cb : String) (s₀ : Store)
    (client : OAuthClientInformationFull) (params : AuthorizationParams)
    (genState g₁ g₂ : String) (now : Nat) :
    (get_state (authorize cb s₀ client params genState).2
          (params.state.getD genState)).map
        StateData.redirect_uri_provided_explicitly =
      some (pyStrBool params.redirect_uri_provided_explicitly) ∧
    (lookupDoc (handle_simple_callback settings (authorize cb s₀ client params genState).2
          now settings.demo_username settings.demo_password (params.state.getD genState)
          g₁ g₂).2.auth_codes ("mcp_" ++ g₁)).map
        AuthorizationCode.redirect_uri_provided_explicitly =
      some params.redirect_uri_provided_explicitly := by
  constructor
  · simp [authorize, set_state, get_state, lookupDoc_setDoc_self]
  · simp [authorize, set_state, get_state, handle_simple_callback, lookupDoc_setDoc_self,
      set_auth_code, set_user_data, delete_state, pyStrBool_roundtrip]

end McpOAuth
